import Mathlib

/-!
Verification development for the panorama tile downloader
(`panorama_downloader_gui.py`).  The pure algorithmic core of the program is
shallowly embedded below: Python strings become `List Char` / `String`,
the `re` searches become explicit left-to-right scanners, network I/O becomes
explicit oracles (`Nat → Bool` existence probes, download-success oracles and
`Option HttpResponse` values), and the on-disk tile directory becomes a list
of filenames / of named images.  Raised Python exceptions become `Option` /
`Except` results.
-/

/- ### Character classes (the regex classes used by the source) -/

/-- The regex class `[A-Za-z0-9_-]` from `extract_id_from_url`
(ASCII letters, digits, underscore, hyphen). -/
def isTokenChar (c : Char) : Bool :=
  (('A' ≤ c && c ≤ 'Z') || ('a' ≤ c && c ≤ 'z') || ('0' ≤ c && c ≤ '9')
    || c = '_' || c = '-')

/- ### Generic leftmost regex search

`re.search` tries to match the pattern at every position of the string, left
to right, and returns the first success.  `reFirst m l` applies the
position-matcher `m` to every suffix of `l`, leftmost first. -/

def reFirst {α : Type} (m : List Char → Option α) : List Char → Option α
  | [] => m []
  | c :: rest =>
    match m (c :: rest) with
    | some r => some r
    | none => reFirst m rest

/-- Matcher for `id=([A-Za-z0-9_-]+)` with `re.IGNORECASE` at the current
position: the literal `id=` (case-insensitive), then a nonempty maximal run
of token characters, which is the captured group. -/
def matchIdHere : List Char → Option (List Char)
  | c1 :: c2 :: c3 :: tail =>
    let tok := tail.takeWhile isTokenChar
    if (c1 = 'i' || c1 = 'I') && (c2 = 'd' || c2 = 'D') && c3 = '='
        && !tok.isEmpty
    then some tok else none
  | _ => none

/-- `extract_id_from_url` (source lines 342-348):
`re.search(r'id=([A-Za-z0-9_-]+)', url, re.IGNORECASE)`, returning the first
captured token, else `None`. -/
def extract_id_from_url (url : String) : Option String :=
  (reFirst matchIdHere url.data).map (fun l => String.mk l)

/-- Matcher for `[&?]x=\d+` (resp. `y`) at the current position; the source
uses this pattern case-sensitively in `validate_url` (line 399). -/
def matchCoordHere (p : Char) : List Char → Option Unit
  | a :: b :: c :: d :: _ =>
    if (a = '&' || a = '?') && b = p && c = '=' && d.isDigit
    then some () else none
  | _ => none

/-- Python `needle in haystack` substring test on character lists. -/
def containsSub (needle : List Char) : List Char → Bool
  | [] => needle.isEmpty
  | c :: rest => needle.isPrefixOf (c :: rest) || containsSub needle rest

/-- Python `str.strip()`: remove leading and trailing whitespace. -/
def pyStrip (l : List Char) : List Char :=
  ((l.dropWhile Char.isWhitespace).reverse.dropWhile Char.isWhitespace).reverse

/-- `validate_url` (source lines 385-403): returns the pair
`(url_type, error)` exactly as the Python function does. -/
def validate_url (url : String) : Option String × Option String :=
  let u := pyStrip url.data
  if u.isEmpty then (none, some ("Empty URL"))
  else if !("http".data.isPrefixOf u) then
    (none, some ("URL must start with http:// or https://"))
  else if (containsSub "[%X]".data u && containsSub "[%Y]".data u) then
    (some ("template"), none)
  else if ((reFirst (matchCoordHere 'x') u).isSome
      && (reFirst (matchCoordHere 'y') u).isSome) then
    (some ("template"), none)
  else (some ("streetview"), none)

/- ### Tile Fetcher: StreetView (source lines 722-782)

Network and filesystem effects are made explicit:
* `dl x y zoom : Bool` is the download oracle — the outcome of
  `download_image` for the tile URL of `(x, y, zoom)`;
* the tile directory is the list of filenames present;
* `requests` counts issued `download_image` calls;
* `totalAttempted : Option Nat` models the Python local variable
  `total_attempted`, which is unbound (`none`) until first assigned;
  reading it while unbound raises `UnboundLocalError`, modelled as
  `Except.error ()`. -/

/-- StreetView tile filename
`f"{panoid}_x{x}-y{y}-zoom{zoom}-nbt1-fover2.jpg"` (source line 754). -/
def svFilename (panoid : String) (x y zoom : Nat) : String :=
  panoid ++ "_x" ++ toString x ++ "-y" ++ toString y ++ "-zoom"
    ++ toString zoom ++ "-nbt1-fover2.jpg"

/-- Mutable state of `attempt_streetview_download_at_zoom`. -/
structure SVState where
  successful : Nat
  failed : Nat
  requests : Nat
  totalAttempted : Option Nat
  files : List String
deriving DecidableEq

/-- Inner `for y in range(height)` loop of
`attempt_streetview_download_at_zoom` (source lines 753-774): skip existing
files, otherwise download; after each download update `total_attempted` and
break out when at least 50 tiles were attempted with fewer than 5 successes. -/
def svInner (dl : Nat → Nat → Nat → Bool) (panoid : String) (zoom x : Nat) :
    List Nat → SVState → SVState
  | [], st => st
  | y :: ys, st =>
    let filename := svFilename panoid x y zoom
    if st.files.contains filename then
      svInner dl panoid zoom x ys { st with successful := st.successful + 1 }
    else
      let st1 := { st with requests := st.requests + 1 }
      let st2 :=
        if dl x y zoom then
          { st1 with successful := st1.successful + 1,
                     files := st1.files ++ [filename] }
        else { st1 with failed := st1.failed + 1 }
      let ta := st2.successful + st2.failed
      let st3 := { st2 with totalAttempted := some ta }
      if 50 ≤ ta ∧ st3.successful < 5 then st3
      else svInner dl panoid zoom x ys st3

/-- Outer `for x in range(width)` loop of
`attempt_streetview_download_at_zoom` (source lines 752-777).  After each
column the source re-reads `total_attempted` (line 776); if no tile of the
grid was ever attempted that local variable is unbound and the function
raises `UnboundLocalError` (`Except.error ()`). -/
def svOuter (dl : Nat → Nat → Nat → Bool) (panoid : String)
    (zoom height : Nat) : List Nat → SVState → Except Unit SVState
  | [], st => .ok st
  | x :: xs, st =>
    let st1 := svInner dl panoid zoom x (List.range height) st
    match st1.totalAttempted with
    | none => .error ()
    | some ta =>
      if 50 ≤ ta ∧ st1.successful < 5 then .ok st1
      else svOuter dl panoid zoom height xs st1

/-- `attempt_streetview_download_at_zoom` (source lines 741-782):
grid is `2^(zoom+1) × 2^zoom`, scanned in x-major order. -/
def attempt_streetview_download_at_zoom (dl : Nat → Nat → Nat → Bool)
    (files : List String) (panoid : String) (zoom : Nat) :
    Except Unit SVState :=
  svOuter dl panoid zoom (2 ^ zoom) (List.range (2 ^ (zoom + 1)))
    ⟨0, 0, 0, none, files⟩

/-- `download_streetview_tiles` (source lines 722-739): default to zoom 5
when the caller passed `None`; attempt that zoom; if the attempted zoom was
`5` and fewer than 10 tiles succeeded, re-attempt the whole grid at zoom 4.
The result records the tally of the last pass, the list of zoom levels the
grid was attempted at, and the final tile directory. -/
def download_streetview_tiles (dl : Nat → Nat → Nat → Bool)
    (files : List String) (panoid : String) (zoomArg : Option Nat) :
    Except Unit (Nat × List Nat × List String) :=
  let zoom := zoomArg.getD 5
  match attempt_streetview_download_at_zoom dl files panoid zoom with
  | .error e => .error e
  | .ok st =>
    if zoom = 5 ∧ st.successful < 10 then
      match attempt_streetview_download_at_zoom dl st.files panoid 4 with
      | .error e => .error e
      | .ok st2 => .ok (st2.successful, [zoom, 4], st2.files)
    else .ok (st.successful, [zoom], st.files)

/-- The state reached after `g` all-failing download attempts starting from
an empty tile directory. -/
def svAllFailState (g : Nat) : SVState :=
  ⟨0, g, g, if g = 0 then none else some g, []⟩

/- ### Tile Fetcher: template / parameterized URLs (source lines 784-839) -/

/-- Template tile filename
`f"{folder_name}_x{x}-y{y}-zoom{zoom}.jpg"` (source line 815). -/
def tmplFilename (folder : String) (x y zoom : Nat) : String :=
  folder ++ "_x" ++ toString x ++ "-y" ++ toString y ++ "-zoom"
    ++ toString zoom ++ ".jpg"

/-- Mutable state of the `download_template_tiles` loop. -/
structure TState where
  successful : Nat
  failed : Nat
  requests : Nat
  files : List String
deriving DecidableEq

/-- Inner `for y in range(max_y)` loop of `download_template_tiles`
(source lines 805-833): skip existing files, otherwise download; there is
no early-abort check in this function. -/
def tmplInner (dl : Nat → Nat → Bool) (folder : String) (zoom x : Nat) :
    List Nat → TState → TState
  | [], st => st
  | y :: ys, st =>
    let filename := tmplFilename folder x y zoom
    if st.files.contains filename then
      tmplInner dl folder zoom x ys { st with successful := st.successful + 1 }
    else
      let st1 := { st with requests := st.requests + 1 }
      let st2 :=
        if dl x y then
          { st1 with successful := st1.successful + 1,
                     files := st1.files ++ [filename] }
        else { st1 with failed := st1.failed + 1 }
      tmplInner dl folder zoom x ys st2

/-- Outer `for x in range(max_x)` loop of `download_template_tiles`
(source lines 804-833). -/
def tmplOuter (dl : Nat → Nat → Bool) (folder : String) (zoom height : Nat) :
    List Nat → TState → TState
  | [], st => st
  | x :: xs, st =>
    tmplOuter dl folder zoom height xs
      (tmplInner dl folder zoom x (List.range height) st)

/-- The download loop of `download_template_tiles` over a resolved
`max_x × max_y` grid. -/
def tmplRun (dl : Nat → Nat → Bool) (files : List String) (folder : String)
    (zoom w h : Nat) : TState :=
  tmplOuter dl folder zoom h (List.range w) ⟨0, 0, 0, files⟩

/- ### Grid Resolver (source lines 841-973)

`auto_detect_grid` and `find_grid_boundaries` run the identical
coarse/fine boundary search; they differ only in how the probe URL is
built (regex substitution of `x=`/`y=` values vs. literal `[%X]`/`[%Y]`
placeholder replacement), which is abstracted into the existence-probe
oracles `probeX x` (tile `(x, 0)` exists) and `probeY y` (tile `(0, y)`
exists). -/

/-- Python `range(start, stop, step)` for `step ≥ 1`. -/
def pyRange (start stop step : Nat) : List Nat :=
  List.range' start ((stop - start + step - 1) / step) step

/-- Theoretical X search ceiling from zoom (source lines 846-854). -/
def theoreticalW (zoom : Nat) : Nat :=
  if zoom = 5 then 64 else if zoom = 4 then 32 else 2 ^ (zoom + 1)

/-- Theoretical Y search ceiling from zoom (source lines 846-854). -/
def theoreticalH (zoom : Nat) : Nat :=
  if zoom = 5 then 32 else if zoom = 4 then 16 else 2 ^ zoom

/-- Coarse + fine X boundary search (source lines 862-875): probe every 4th
x with y fixed at 0, remembering the last present x; then probe every x in
`[max(0, found-8), min(ceiling, found+16))` keeping the greatest present. -/
def detectedMaxX (probeX : Nat → Bool) (zoom : Nat) : Nat :=
  let bound := theoreticalW zoom
  let coarse := (pyRange 0 bound 4).foldl
    (fun acc x => if probeX x then x else acc) 0
  (pyRange (coarse - 8) (min bound (coarse + 16)) 1).foldl
    (fun acc x => if probeX x then max acc x else acc) coarse

/-- Coarse + fine Y boundary search (source lines 878-891): stride 2,
fine window `[max(0, found-4), min(ceiling, found+8))`. -/
def detectedMaxY (probeY : Nat → Bool) (zoom : Nat) : Nat :=
  let bound := theoreticalH zoom
  let coarse := (pyRange 0 bound 2).foldl
    (fun acc y => if probeY y then y else acc) 0
  (pyRange (coarse - 4) (min bound (coarse + 8)) 1).foldl
    (fun acc y => if probeY y then max acc y else acc) coarse

/-- Shared tail of both grid-resolver functions (source lines 893-907 and
959-973): if the detected tile count is below 10% of the theoretical
ceiling product, fall back to the full theoretical bounds.  The Python
comparison `detected_tiles < theoretical_tiles * 0.1` is modelled as the
exact rational comparison `10 * detected < theoretical`; the float
threshold `theoretical * 0.1` lies strictly above `theoretical / 10`
(0.1 rounds up in binary64 and scaling by the power of two `theoretical`
is exact), so every grid satisfying the rational comparison also takes the
fallback branch in the source. -/
def gridSearch (probeX probeY : Nat → Bool) (zoom : Nat) : Nat × Nat :=
  let mx := detectedMaxX probeX zoom
  let my := detectedMaxY probeY zoom
  let theoretical := theoreticalW zoom * theoreticalH zoom
  let detected := (mx + 1) * (my + 1)
  if 10 * detected < theoretical then (theoreticalW zoom, theoreticalH zoom)
  else (mx + 1, my + 1)

/-- `auto_detect_grid` (source lines 841-907): boundary search with probe
URLs built by regex substitution of the `x=`/`y=` query parameters. -/
def auto_detect_grid (probeX probeY : Nat → Bool) (zoom : Nat) : Nat × Nat :=
  gridSearch probeX probeY zoom

/-- `find_grid_boundaries` (source lines 909-973): the identical boundary
search with probe URLs built by `[%X]`/`[%Y]` placeholder replacement. -/
def find_grid_boundaries (probeX probeY : Nat → Bool) (zoom : Nat) :
    Nat × Nat :=
  gridSearch probeX probeY zoom

/-- `download_template_tiles` (source lines 784-839): resolve the grid by
probing (`find_grid_boundaries` for placeholder templates,
`auto_detect_grid` for parameterized URLs — identical here), then run the
download loop over the resolved grid.  There is no early-abort. -/
def download_template_tiles (probeX probeY : Nat → Bool)
    (dl : Nat → Nat → Bool) (files : List String) (folder : String)
    (zoom : Nat) : TState :=
  let grid := gridSearch probeX probeY zoom
  tmplRun dl files folder zoom grid.1 grid.2

/- ### Per-tile download (source lines 986-1004) -/

/-- An HTTP response; a transport error or timeout
(`requests.RequestException`) is modelled as `none` at the call site. -/
structure HttpResponse where
  status : Nat
  contentType : String
  body : List Nat
deriving DecidableEq

/-- `download_image` (source lines 986-1004): `raise_for_status()` raises
(and the handler returns `False`) exactly for status codes in
`[400, 600)`; otherwise the body is written verbatim iff the content-type
starts with `image/`.  `some body` is a successful write of `body`;
`none` is a failed download (nothing written). -/
def download_image (resp : Option HttpResponse) : Option (List Nat) :=
  match resp with
  | none => none
  | some r =>
    if 400 ≤ r.status ∧ r.status < 600 then none
    else if ("image/".data.isPrefixOf r.contentType.data) then some r.body
    else none

/- ### Tile Normalizer (source lines 1006-1049)

The tile directory is a list of `(filename, readable pixel size)`;
`none` models a file `PIL.Image.open` fails on (skipped with a warning in
both passes). -/

/-- One step of the first pass of `normalize_tiles` (source lines
1014-1023): an unreadable file is skipped; a readable size replaces the
accumulator when its pixel area is strictly larger. -/
def tileAreaStep (acc : Nat × Nat) (e : String × Option (Nat × Nat)) :
    Nat × Nat :=
  match e.2 with
  | some s => if s.1 * s.2 > acc.1 * acc.2 then s else acc
  | none => acc

/-- First pass of `normalize_tiles` (source lines 1011-1025): the size with
the largest pixel area, strict `>` starting from `(0, 0)`, first
occurrence winning ties. -/
def largestTileSize (dir : List (String × Option (Nat × Nat))) : Nat × Nat :=
  dir.foldl tileAreaStep (0, 0)

/-- `normalize_tiles` (source lines 1006-1049): `none` models the raised
`No tiles found to normalize` exception (zero readable images); otherwise
each entry is mapped to `(filename, final size, was resized)`: readable
tiles whose size differs from the largest size are resized to it (and
re-saved as JPEG quality 95), matching tiles and unreadable files are left
untouched. -/
def normalize_tiles (dir : List (String × Option (Nat × Nat))) :
    Option (List (String × Option (Nat × Nat) × Bool)) :=
  if dir.all (fun e => e.2.isNone) then none
  else
    let largest := largestTileSize dir
    some (dir.map (fun e =>
      match e.2 with
      | some s =>
        if s ≠ largest then (e.1, some largest, true)
        else (e.1, some s, false)
      | none => (e.1, none, false)))

/- ### Panorama Stitcher (source lines 1051-1134)

Images are pixel functions with explicit dimensions.  The job directory is
a list of `(filename, loaded image)` in glob order; `none` models a file
`PIL.Image.open` raises on (logged and skipped, source lines 1067-1076). -/

/-- A decoded image: dimensions plus a pixel function (RGB triples). -/
structure TileImg where
  width : Nat
  height : Nat
  px : Nat → Nat → Nat × Nat × Nat

/-- The canvas being assembled. -/
structure Canvas where
  width : Nat
  height : Nat
  px : Nat → Nat → Nat × Nat × Nat

/-- RGB black `(0, 0, 0)`, the canvas background (source line 1095). -/
def blackPx : Nat × Nat × Nat := (0, 0, 0)

/-- Matcher for `x(\d+)-y(\d+)-zoom(\d+)` (source line 1061) at the current
position: literal `x`, nonempty digit run, `-y`, digit run, `-zoom`, digit
run; the three captured runs are returned as numbers. -/
def matchXYZHere : List Char → Option (Nat × Nat × Nat)
  | 'x' :: rest =>
    let d1 := rest.takeWhile Char.isDigit
    if d1.isEmpty then none
    else
      match rest.dropWhile Char.isDigit with
      | '-' :: 'y' :: rest2 =>
        let d2 := rest2.takeWhile Char.isDigit
        if d2.isEmpty then none
        else
          match rest2.dropWhile Char.isDigit with
          | '-' :: 'z' :: 'o' :: 'o' :: 'm' :: rest3 =>
            let d3 := rest3.takeWhile Char.isDigit
            if d3.isEmpty then none
            else
              some (d1.foldl (fun a c => a * 10 + (c.toNat - 48)) 0,
                    d2.foldl (fun a c => a * 10 + (c.toNat - 48)) 0,
                    d3.foldl (fun a c => a * 10 + (c.toNat - 48)) 0)
          | _ => none
      | _ => none
  | _ => none

/-- Tile-loading pass of `stitch_tiles` (source lines 1056-1076): keep, in
directory order, every file whose name matches the coordinate pattern and
whose image loads, as `(x, y, image)`. -/
def loadTiles (dir : List (String × Option TileImg)) :
    List (Nat × Nat × TileImg) :=
  dir.filterMap (fun e =>
    match reFirst matchXYZHere e.1.data, e.2 with
    | some xyz, some img => some (xyz.1, xyz.2.1, img)
    | _, _ => none)

/-- Pasting one tile onto the canvas at `(xp, yp)` (source line 1104):
pixels inside the tile's rectangle come from the tile, the rest are
unchanged. -/
def pasteTile (c : Canvas) (img : TileImg) (xp yp : Nat) : Canvas :=
  { c with px := fun a b =>
      if xp ≤ a ∧ a < xp + img.width ∧ yp ≤ b ∧ b < yp + img.height then
        img.px (a - xp) (b - yp)
      else c.px a b }

/-- Tile-placement fold of `stitch_tiles` (source lines 1098-1105): each
tile goes to `(x·tileWidth, y·tileHeight)`; a placement whose rectangle
(measured with the first tile's dimensions) would exceed the canvas is
skipped, not an error. -/
def placeTiles (tw th cw ch : Nat) (tiles : List (Nat × Nat × TileImg))
    (c : Canvas) : Canvas :=
  tiles.foldl
    (fun acc t =>
      if t.1 * tw + tw ≤ cw ∧ t.2.1 * th + th ≤ ch then
        pasteTile acc t.2.2 (t.1 * tw) (t.2.1 * th)
      else acc)
    c

/-- The bounds check of the placement loop (source line 1103), with the
first tile's dimensions `tw × th`. -/
def tileFits (tw th cw ch : Nat) (t : Nat × Nat × TileImg) : Prop :=
  t.1 * tw + tw ≤ cw ∧ t.2.1 * th + th ≤ ch

/-- The pixel rectangle a pasted tile occupies (its own image size). -/
def tileCovers (tw th : Nat) (t : Nat × Nat × TileImg) (a b : Nat) : Prop :=
  t.1 * tw ≤ a ∧ a < t.1 * tw + t.2.2.width ∧
  t.2.1 * th ≤ b ∧ b < t.2.1 * th + t.2.2.height

/-- `max(tile['x'] for tile in tiles)` (source line 1085); over `Nat` the
fold from 0 agrees with Python's `max` of a nonempty list. -/
def tilesMaxX (tiles : List (Nat × Nat × TileImg)) : Nat :=
  tiles.foldl (fun a t => max a t.1) 0

/-- `max(tile['y'] for tile in tiles)` (source line 1086). -/
def tilesMaxY (tiles : List (Nat × Nat × TileImg)) : Nat :=
  tiles.foldl (fun a t => max a t.2.1) 0

/-- Canvas-construction part of `stitch_tiles` (source lines 1051-1105):
`none` models the raised `No tiles found for stitching` exception; else
tile dimensions come from the first loaded tile, the canvas is
`((maxX+1)·tileWidth) × ((maxY+1)·tileHeight)` over the maximum observed
coordinates, initially black, with every fitting tile pasted. -/
def stitchCanvas (dir : List (String × Option TileImg)) : Option Canvas :=
  match loadTiles dir with
  | [] => none
  | t0 :: ts =>
    let tiles := t0 :: ts
    let tw := t0.2.2.width
    let th := t0.2.2.height
    let cw := (tilesMaxX tiles + 1) * tw
    let ch := (tilesMaxY tiles + 1) * th
    some (placeTiles tw th cw ch tiles ⟨cw, ch, fun _ _ => blackPx⟩)

/-- Aspect-correction step of `stitch_tiles` (source lines 1107-1120):
target height is `canvasWidth / 2` (integer division); crop to rows
`[0, target)` when taller, pad with black rows at the bottom when shorter,
unchanged when equal. -/
def aspect_correct (c : Canvas) : Canvas :=
  let target := c.width / 2
  if c.height > target then { width := c.width, height := target, px := c.px }
  else if c.height < target then
    { width := c.width, height := target,
      px := fun a b => if b < c.height then c.px a b else blackPx }
  else c

/-- `stitch_tiles` (source lines 1051-1134): construct the canvas, then
correct it to a 2:1 aspect ratio; the result is what is saved as the final
panorama JPEG. -/
def stitch_tiles (dir : List (String × Option TileImg)) : Option Canvas :=
  (stitchCanvas dir).map aspect_correct

/- ## Helper lemmas -/

/-- `reFirst` returns `none` exactly when the matcher fails at every
position (every suffix). -/
theorem reFirst_eq_none_iff {α : Type} (m : List Char → Option α)
    (l : List Char) :
    reFirst m l = none ↔ ∀ i, m (l.drop i) = none := by
  induction l with
  | nil =>
    simp only [reFirst]
    constructor
    · intro h i
      cases i <;> simpa using h
    · intro h
      simpa using h 0
  | cons c rest ih =>
    simp only [reFirst]
    cases hm : m (c :: rest) with
    | some r =>
      simp only [reduceCtorEq, false_iff, not_forall]
      exact ⟨0, by simp [hm]⟩
    | none =>
      rw [ih]
      constructor
      · intro h i
        cases i with
        | zero => simpa using hm
        | succ j => simpa [List.drop_succ_cons] using h j
      · intro h j
        simpa [List.drop_succ_cons] using h (j + 1)

/-- When `reFirst` succeeds it returns the leftmost position match. -/
theorem reFirst_eq_some {α : Type} (m : List Char → Option α)
    (l : List Char) (a : α) (h : reFirst m l = some a) :
    ∃ i, m (l.drop i) = some a ∧ ∀ j < i, m (l.drop j) = none := by
  induction l with
  | nil =>
    exact ⟨0, by simpa [reFirst] using h, fun j hj => absurd hj (Nat.not_lt_zero j)⟩
  | cons c rest ih =>
    rw [reFirst] at h
    cases hm : m (c :: rest) with
    | some r =>
      rw [hm] at h
      exact ⟨0, by simpa [hm] using h, fun j hj => absurd hj (Nat.not_lt_zero j)⟩
    | none =>
      rw [hm] at h
      obtain ⟨i, hi, hlt⟩ := ih h
      refine ⟨i + 1, by simpa [List.drop_succ_cons] using hi, fun j hj => ?_⟩
      cases j with
      | zero => simpa using hm
      | succ k => simpa [List.drop_succ_cons] using hlt k (by omega)

/- ## C1: identifier extraction -/

/-- C1 counterexample: the claim says that on a StreetView-classified URL
containing `1sXyZ_9-AbC` with no `id=`/`panoid=`, extraction yields
`XyZ_9-AbC` via the `1s<token>` fallback.  The code has no such fallback
(`extract_id_from_url` is a single `id=` search): on this concrete
StreetView-classified URL containing `1sXyZ_9-AbC` and no `id=` substring,
extraction returns `None`. -/
theorem C1_cex :
    (validate_url
        ("https://www.google.com/maps/@48.8,2.3,3a/data=!3m5!1sXyZ_9-AbC!2e0")).1
      = some ("streetview") ∧
    containsSub ("1sXyZ_9-AbC").data
        ("https://www.google.com/maps/@48.8,2.3,3a/data=!3m5!1sXyZ_9-AbC!2e0").data
      = true ∧
    extract_id_from_url
        ("https://www.google.com/maps/@48.8,2.3,3a/data=!3m5!1sXyZ_9-AbC!2e0")
      = none := by
  refine ⟨by decide, by decide, by decide⟩

/-- C1 (amended): identifier extraction is one case-insensitive leftmost
search for `id=<token>` with `token ∈ [A-Za-z0-9_-]+`; on
`https://x.com/y?id=ABC123&z=5` it yields `ABC123`; there is no
StreetView `1s<token>` fallback, so the StreetView URL of the
counterexample yields `None`; in general the result is `None` exactly
when no position of the URL matches `id=<token>`, and a returned token is
always the capture of the leftmost matching position. -/
theorem C1_extract_amended :
    extract_id_from_url ("https://x.com/y?id=ABC123&z=5") = some ("ABC123") ∧
    extract_id_from_url
        ("https://www.google.com/maps/@48.8,2.3,3a/data=!3m5!1sXyZ_9-AbC!2e0")
      = none ∧
    (∀ url : String, extract_id_from_url url = none ↔
      ∀ i, matchIdHere (url.data.drop i) = none) ∧
    (∀ url t : String, extract_id_from_url url = some t →
      ∃ i, matchIdHere (url.data.drop i) = some t.data ∧
        ∀ j < i, matchIdHere (url.data.drop j) = none) := by
  refine ⟨by decide, by decide, ?_, ?_⟩
  · intro url
    unfold extract_id_from_url
    rw [Option.map_eq_none']
    exact reFirst_eq_none_iff matchIdHere url.data
  · intro url t h
    unfold extract_id_from_url at h
    cases hr : reFirst matchIdHere url.data with
    | none => rw [hr] at h; simp at h
    | some tok =>
      rw [hr] at h
      simp only [Option.map_some', Option.some.injEq] at h
      obtain ⟨i, hi, hlt⟩ := reFirst_eq_some matchIdHere url.data tok hr
      subst h
      exact ⟨i, hi, hlt⟩

/-- C1 witness: the amended theorem applied at the concrete URL `a?id=Q`. -/
theorem C1_extract_amended_witness :
    extract_id_from_url ("a?id=Q") = some ("Q") ∧
    (∃ i, matchIdHere (("a?id=Q").data.drop i) = some ("Q").data ∧
      ∀ j < i, matchIdHere (("a?id=Q").data.drop j) = none) :=
  ⟨by decide, C1_extract_amended.2.2.2 ("a?id=Q") ("Q") (by decide)⟩

/- ## C10: `panoid=`/`sv_pid=` captured by the plain `id=` search,
independent of URL classification -/

/-- C10: the single case-insensitive `id=` search captures the token of
any parameter merely ending in `id=`: for every nonempty token of
`[A-Za-z0-9_-]` characters, a URL whose first `id=` occurrence is inside
`panoid=<token>` extracts exactly that token; the same holds concretely
for `sv_pid=`; and this is not gated on StreetView classification — a URL
classified `template` (via its `x=`/`y=` parameters) still extracts its
`panoid` token. -/
theorem C10_extract_ungated :
    (∀ tok : String, tok.data ≠ [] → (∀ c ∈ tok.data, isTokenChar c = true) →
      extract_id_from_url ("https://a.com/?panoid=" ++ tok) = some tok) ∧
    extract_id_from_url ("https://b.com/photo?sv_pid=Q-1_z") = some ("Q-1_z") ∧
    ((validate_url ("https://a.com/tile?x=3&y=4&panoid=AAA111")).1
        = some ("template") ∧
      extract_id_from_url ("https://a.com/tile?x=3&y=4&panoid=AAA111")
        = some ("AAA111")) ∧
    (validate_url ("https://a.com/?panoid=ZZZ")).1 = some ("streetview") := by
  refine ⟨?_, by decide, ⟨by decide, by decide⟩, by decide⟩
  intro tok hne htok
  have htw : tok.data.takeWhile isTokenChar = tok.data :=
    List.takeWhile_eq_self_iff.mpr (fun x hx => htok x hx)
  have hdata : ("https://a.com/?panoid=" ++ tok).data
      = 'h' :: 't' :: 't' :: 'p' :: 's' :: ':' :: '/' :: '/' :: 'a' :: '.'
        :: 'c' :: 'o' :: 'm' :: '/' :: '?' :: 'p' :: 'a' :: 'n' :: 'o'
        :: 'i' :: 'd' :: '=' :: tok.data := by
    rw [String.data_append]
    rfl
  obtain ⟨t0, ts, hts⟩ : ∃ t0 ts, tok.data = t0 :: ts := by
    cases hc : tok.data with
    | nil => exact absurd hc hne
    | cons a l => exact ⟨a, l, rfl⟩
  unfold extract_id_from_url
  rw [hdata]
  rw [hts] at htw ⊢
  simp only [reFirst, matchIdHere, htw]
  norm_num
  cases tok with
  | mk d => simp_all

/- ## C5: Grid Resolver bounds and theoretical fallback -/

/-- The theoretical X ceiling is always positive. -/
theorem theoreticalW_pos (zoom : Nat) : 1 ≤ theoreticalW zoom := by
  unfold theoreticalW
  split
  · norm_num
  · split
    · norm_num
    · exact Nat.one_le_two_pow

/-- The theoretical Y ceiling is always positive. -/
theorem theoreticalH_pos (zoom : Nat) : 1 ≤ theoreticalH zoom := by
  unfold theoreticalH
  split
  · norm_num
  · split
    · norm_num
    · exact Nat.one_le_two_pow

/-- `gridSearch` either falls back to the theoretical ceiling or returns
the detected maxima plus one. -/
theorem gridSearch_cases (pX pY : Nat → Bool) (zoom : Nat) :
    gridSearch pX pY zoom = (theoreticalW zoom, theoreticalH zoom) ∨
    gridSearch pX pY zoom
      = (detectedMaxX pX zoom + 1, detectedMaxY pY zoom + 1) := by
  unfold gridSearch
  by_cases hc : 10 * ((detectedMaxX pX zoom + 1) * (detectedMaxY pY zoom + 1))
      < theoreticalW zoom * theoreticalH zoom
  · left
    simp [hc]
  · right
    simp [hc]

/-- Below 10% detected coverage, `gridSearch` returns the ceiling. -/
theorem gridSearch_fallback (pX pY : Nat → Bool) (zoom : Nat)
    (h : 10 * ((detectedMaxX pX zoom + 1) * (detectedMaxY pY zoom + 1))
      < theoreticalW zoom * theoreticalH zoom) :
    gridSearch pX pY zoom = (theoreticalW zoom, theoreticalH zoom) := by
  unfold gridSearch
  simp [h]

/-- C5: for every probe outcome and zoom, both grid-resolver functions
return `width ≥ 1 ∧ height ≥ 1`; whenever the detected tile count
`(maxX+1)·(maxY+1)` is below 10% of the theoretical ceiling product, the
result is exactly the zoom-derived ceiling; and that ceiling is `64×32`
at zoom 5, `32×16` at zoom 4 and `2^(zoom+1) × 2^zoom` otherwise.  This
holds identically for parameterized-coordinate probing
(`auto_detect_grid`) and template-placeholder probing
(`find_grid_boundaries`). -/
theorem C5_grid_resolver (pX pY : Nat → Bool) (zoom : Nat) :
    (1 ≤ (auto_detect_grid pX pY zoom).1 ∧
      1 ≤ (auto_detect_grid pX pY zoom).2 ∧
      1 ≤ (find_grid_boundaries pX pY zoom).1 ∧
      1 ≤ (find_grid_boundaries pX pY zoom).2) ∧
    (10 * ((detectedMaxX pX zoom + 1) * (detectedMaxY pY zoom + 1))
        < theoreticalW zoom * theoreticalH zoom →
      auto_detect_grid pX pY zoom = (theoreticalW zoom, theoreticalH zoom) ∧
      find_grid_boundaries pX pY zoom
        = (theoreticalW zoom, theoreticalH zoom)) ∧
    ((theoreticalW 5, theoreticalH 5) = (64, 32) ∧
      (theoreticalW 4, theoreticalH 4) = (32, 16) ∧
      ∀ z : Nat, z ≠ 5 → z ≠ 4 →
        (theoreticalW z, theoreticalH z) = (2 ^ (z + 1), 2 ^ z)) := by
  refine ⟨?_, ?_, by decide, by decide, ?_⟩
  · unfold auto_detect_grid find_grid_boundaries
    rcases gridSearch_cases pX pY zoom with h | h <;> rw [h]
    · exact ⟨theoreticalW_pos zoom, theoreticalH_pos zoom,
        theoreticalW_pos zoom, theoreticalH_pos zoom⟩
    · exact ⟨Nat.le_add_left 1 _, Nat.le_add_left 1 _,
        Nat.le_add_left 1 _, Nat.le_add_left 1 _⟩
  · intro h
    unfold auto_detect_grid find_grid_boundaries
    rw [gridSearch_fallback pX pY zoom h]
    exact ⟨rfl, rfl⟩
  · intro z h5 h4
    simp [theoreticalW, theoreticalH, h5, h4]

/-- C5 witness: with all probes failing at zoom 3 the detected grid is
`1×1`, below 10% of the `16×8` ceiling, so both resolvers fall back to the
full theoretical bounds. -/
theorem C5_grid_resolver_witness :
    10 * ((detectedMaxX (fun _ => false) 3 + 1)
        * (detectedMaxY (fun _ => false) 3 + 1))
      < theoreticalW 3 * theoreticalH 3 ∧
    auto_detect_grid (fun _ => false) (fun _ => false) 3 = (16, 8) ∧
    find_grid_boundaries (fun _ => false) (fun _ => false) 3 = (16, 8) :=
  ⟨by decide,
    (C5_grid_resolver (fun _ => false) (fun _ => false) 3).2.1 (by decide)⟩

/- ## C6: stitcher aspect correction -/

/-- C6: aspect correction keeps the width, always returns height
`width / 2` (integer division); when the canvas is taller it is cropped to
rows `[0, width/2)` keeping their pixels; when shorter it is padded with
black rows at the bottom; when equal it is unchanged. -/
theorem C6_aspect_correction (c : Canvas) :
    (aspect_correct c).width = c.width ∧
    (aspect_correct c).height = c.width / 2 ∧
    (c.width / 2 < c.height →
      ∀ a b : Nat, (aspect_correct c).px a b = c.px a b) ∧
    (c.height < c.width / 2 →
      ∀ a b : Nat, (aspect_correct c).px a b
        = if b < c.height then c.px a b else blackPx) ∧
    (c.height = c.width / 2 → aspect_correct c = c) := by
  rcases Nat.lt_trichotomy c.height (c.width / 2) with h | h | h
  · refine ⟨?_, ?_, ?_, ?_, ?_⟩ <;>
      first
        | (simp [aspect_correct, h, Nat.lt_asymm h]; done)
        | (simp [aspect_correct, h, Nat.lt_asymm h]; omega)
  · refine ⟨?_, ?_, ?_, ?_, ?_⟩ <;>
      simp [aspect_correct, h]
  · refine ⟨?_, ?_, ?_, ?_, ?_⟩ <;>
      first
        | (simp [aspect_correct, h]; done)
        | (simp [aspect_correct, h]; omega)

/-- C6 witness: the three concrete canvases of the claim: `2048×1536` is
cropped to `2048×1024` keeping the pixels of rows `[0, 1024)`, `2048×900`
is padded to `2048×1024` with black below row 900, and `2048×1024` is
unchanged. -/
theorem C6_aspect_correction_witness :
    ((2048 : Nat) / 2 < 1536 ∧
      (aspect_correct ⟨2048, 1536, fun a b => (a, b, 0)⟩).height = 1024 ∧
      (aspect_correct ⟨2048, 1536, fun a b => (a, b, 0)⟩).px 5 7
        = (5, 7, 0)) ∧
    ((900 : Nat) < 2048 / 2 ∧
      (aspect_correct ⟨2048, 900, fun a b => (a, b, 0)⟩).height = 1024 ∧
      (aspect_correct ⟨2048, 900, fun a b => (a, b, 0)⟩).px 3 950
        = blackPx) ∧
    ((1024 : Nat) = 2048 / 2 ∧
      aspect_correct ⟨2048, 1024, fun a b => (a, b, 0)⟩
        = ⟨2048, 1024, fun a b => (a, b, 0)⟩) := by
  refine ⟨⟨by norm_num, ?_, ?_⟩, ⟨by norm_num, ?_, ?_⟩, ⟨by norm_num, ?_⟩⟩
  · simpa using (C6_aspect_correction ⟨2048, 1536, fun a b => (a, b, 0)⟩).2.1
  · exact (C6_aspect_correction ⟨2048, 1536, fun a b => (a, b, 0)⟩).2.2.1
      (by norm_num) 5 7
  · simpa using (C6_aspect_correction ⟨2048, 900, fun a b => (a, b, 0)⟩).2.1
  · have h := (C6_aspect_correction ⟨2048, 900, fun a b => (a, b, 0)⟩).2.2.2.1
      (by norm_num) 3 950
    simpa using h
  · exact (C6_aspect_correction ⟨2048, 1024, fun a b => (a, b, 0)⟩).2.2.2.2
      (by norm_num)

/- ## C8: per-tile download outcome -/

/-- C8 counterexample: the claim counts every non-2xx response as failed,
but `raise_for_status()` only raises for statuses in `[400, 600)`: a
status-304 response with an `image/` content-type is treated as a success
and its body is written. -/
theorem C8_cex :
    download_image (some ⟨304, "image/jpeg", [7, 7]⟩) = some [7, 7] := by
  decide

/-- C8 (amended): a download succeeds iff a response arrived (no transport
error/timeout), its status is outside `[400, 600)` (the statuses
`raise_for_status` raises on), and its content-type begins with `image/`;
on success the raw body is written verbatim; every other outcome is a
failure writing nothing. -/
theorem C8_download_outcome :
    (∀ r : HttpResponse, ¬(400 ≤ r.status ∧ r.status < 600) →
      "image/".data.isPrefixOf r.contentType.data = true →
      download_image (some r) = some r.body) ∧
    (∀ resp : Option HttpResponse, ∀ body : List Nat,
      download_image resp = some body →
      ∃ r, resp = some r ∧ ¬(400 ≤ r.status ∧ r.status < 600) ∧
        "image/".data.isPrefixOf r.contentType.data = true ∧
        body = r.body) ∧
    download_image none = none := by
  refine ⟨?_, ?_, rfl⟩
  · intro r h1 h2
    simp [download_image, h1, h2]
  · intro resp body h
    cases resp with
    | none => simp [download_image] at h
    | some r =>
      simp only [download_image] at h
      by_cases h1 : 400 ≤ r.status ∧ r.status < 600
      · rw [if_pos h1] at h
        exact absurd h (by simp)
      · rw [if_neg h1] at h
        by_cases h2 : "image/".data.isPrefixOf r.contentType.data = true
        · rw [if_pos h2] at h
          exact ⟨r, rfl, h1, h2, (Option.some.inj h).symm⟩
        · rw [if_neg h2] at h
          exact absurd h (by simp)

/-- C8 witness: the amended theorem applied to a concrete `200 OK` JPEG
response. -/
theorem C8_download_outcome_witness :
    ¬((400 : Nat) ≤ 200 ∧ (200 : Nat) < 600) ∧
    "image/".data.isPrefixOf ("image/jpeg").data = true ∧
    download_image (some ⟨200, "image/jpeg", [1, 2, 3]⟩) = some [1, 2, 3] :=
  ⟨by norm_num, by decide,
    C8_download_outcome.1 ⟨200, "image/jpeg", [1, 2, 3]⟩ (by norm_num)
      (by decide)⟩

/- ## Fetcher loop lemmas -/

/-- All-failing inner column scan from an empty directory: tiles are
attempted one by one until the failure count reaches 50, at which point
the early-abort check breaks out of the loop. -/
theorem svInner_allfail (p : String) (z x : Nat) (ys : List Nat) :
    ∀ f : Nat, f < 50 →
      svInner (fun _ _ _ => false) p z x ys (svAllFailState f)
        = svAllFailState (min (f + ys.length) 50) := by
  induction ys with
  | nil =>
    intro f hf
    have hm : min (f + ([] : List Nat).length) 50 = f := by
      simp only [List.length_nil]
      omega
    rw [hm]
    rfl
  | cons y ys ih =>
    intro f hf
    rw [svInner]
    simp only [svAllFailState, List.contains_nil, Bool.false_eq_true,
      if_false, Nat.zero_add]
    by_cases h50 : 50 ≤ f + 1
    · rw [if_pos ⟨h50, by norm_num⟩]
      have hm : min (f + (y :: ys).length) 50 = 50 := by
        simp only [List.length_cons]
        omega
      have hf1 : f + 1 = 50 := by omega
      rw [hm, hf1]
      rfl
    · rw [if_neg (by simp [h50])]
      have heq : (⟨0, f + 1, f + 1, some (f + 1), []⟩ : SVState)
          = svAllFailState (f + 1) := by
        simp [svAllFailState]
      rw [heq, ih (f + 1) (by omega)]
      have hm : min (f + 1 + ys.length) 50 = min (f + (y :: ys).length) 50 := by
        simp only [List.length_cons]
        omega
      rw [hm]
      rfl

/-- All-failing outer scan from an empty directory with a nonempty column:
the grid is scanned column by column until 50 failures accumulate, then
the outer early-abort check stops the scan. -/
theorem svOuter_allfail (p : String) (z h : Nat) (hh : 0 < h)
    (xs : List Nat) :
    ∀ f : Nat, f < 50 →
      svOuter (fun _ _ _ => false) p z h xs (svAllFailState f)
        = .ok (svAllFailState (min (f + xs.length * h) 50)) := by
  induction xs with
  | nil =>
    intro f hf
    have hm : min (f + ([] : List Nat).length * h) 50 = f := by
      simp only [List.length_nil, Nat.zero_mul]
      omega
    rw [hm]
    rfl
  | cons x xs ih =>
    intro f hf
    have hsm : ((x :: xs).length) * h = xs.length * h + h := by
      simp only [List.length_cons]
      ring
    simp only [svOuter]
    rw [svInner_allfail p z x (List.range h) f hf, List.length_range]
    have hg : ¬(min (f + h) 50 = 0) := by omega
    simp only [svAllFailState, hg, if_false]
    by_cases hb : 50 ≤ min (f + h) 50
    · rw [if_pos ⟨hb, by norm_num⟩]
      have h2 : min (f + (x :: xs).length * h) 50 = 50 := by omega
      have h1 : min (f + h) 50 = 50 := by omega
      rw [h1, h2]
      rfl
    · have hlt : min (f + h) 50 < 50 := by omega
      rw [if_neg (by simp [hb])]
      have heq : (⟨0, min (f + h) 50, min (f + h) 50, some (min (f + h) 50),
          []⟩ : SVState) = svAllFailState (min (f + h) 50) := by
        simp [svAllFailState, hg]
      rw [heq, ih (min (f + h) 50) hlt]
      have hm : min (min (f + h) 50 + xs.length * h) 50
          = min (f + (x :: xs).length * h) 50 := by omega
      rw [hm]
      rfl

/-- An all-failing StreetView attempt on a grid of at least 50 tiles from
an empty directory stops after exactly 50 attempts. -/
theorem sv_allfail_run (p : String) (z : Nat)
    (hz : 50 ≤ 2 ^ (z + 1) * 2 ^ z) :
    attempt_streetview_download_at_zoom (fun _ _ _ => false) [] p z
      = .ok (svAllFailState 50) := by
  unfold attempt_streetview_download_at_zoom
  have h0 : (⟨0, 0, 0, none, []⟩ : SVState) = svAllFailState 0 := rfl
  rw [h0, svOuter_allfail p z (2 ^ z) (Nat.pos_pow_of_pos z (by norm_num))
    (List.range (2 ^ (z + 1))) 0 (by norm_num)]
  congr 2
  rw [List.length_range]
  omega

/-- All-failing template inner scan from an empty directory: every tile of
the column is attempted (there is no early abort). -/
theorem tmplInner_allfail (folder : String) (z x : Nat) (ys : List Nat) :
    ∀ s f r : Nat,
      tmplInner (fun _ _ => false) folder z x ys ⟨s, f, r, []⟩
        = ⟨s, f + ys.length, r + ys.length, []⟩ := by
  induction ys with
  | nil => intro s f r; simp [tmplInner]
  | cons y ys ih =>
    intro s f r
    rw [tmplInner]
    simp only [List.contains_nil, Bool.false_eq_true, if_false]
    rw [ih s (f + 1) (r + 1)]
    simp only [List.length_cons]
    congr 1 <;> omega

/-- All-failing template outer scan from an empty directory: the whole
grid is attempted. -/
theorem tmplOuter_allfail (folder : String) (z h : Nat) (xs : List Nat) :
    ∀ s f r : Nat,
      tmplOuter (fun _ _ => false) folder z h xs ⟨s, f, r, []⟩
        = ⟨s, f + xs.length * h, r + xs.length * h, []⟩ := by
  induction xs with
  | nil => intro s f r; simp [tmplOuter]
  | cons x xs ih =>
    intro s f r
    have hsm : ((x :: xs).length) * h = xs.length * h + h := by
      simp only [List.length_cons]
      ring
    rw [tmplOuter, tmplInner_allfail folder z x (List.range h) s f r,
      List.length_range, ih s (f + h) (r + h)]
    congr 1 <;> omega

/-- All-failing template run from an empty directory: `w*h` requests. -/
theorem tmplRun_allfail (folder : String) (z w h : Nat) :
    tmplRun (fun _ _ => false) [] folder z w h = ⟨0, w * h, w * h, []⟩ := by
  unfold tmplRun
  rw [tmplOuter_allfail folder z h (List.range w) 0 0 0, List.length_range]
  congr 1 <;> omega

/-- Inner StreetView column scan over tiles that are all already on disk:
every tile is skipped via the existence check, only `successful` grows;
in particular no download is attempted and `totalAttempted` stays as it
was. -/
theorem svInner_present (dl : Nat → Nat → Nat → Bool) (p : String)
    (z x : Nat) (ys : List Nat) :
    ∀ st : SVState, (∀ y ∈ ys, svFilename p x y z ∈ st.files) →
      svInner dl p z x ys st
        = { st with successful := st.successful + ys.length } := by
  induction ys with
  | nil => intro st h; simp [svInner]
  | cons y ys ih =>
    intro st h
    rw [svInner]
    have hc : st.files.contains (svFilename p x y z) = true :=
      List.elem_iff.mpr (h y (List.mem_cons_self y ys))
    rw [if_pos hc]
    rw [ih ({ st with successful := st.successful + 1 })
      (fun y2 hy2 => h y2 (List.mem_cons_of_mem y hy2))]
    simp only [List.length_cons]
    congr 1
    omega

/-- Inner template column scan over tiles already on disk: all skipped. -/
theorem tmplInner_present (dl : Nat → Nat → Bool) (folder : String)
    (z x : Nat) (ys : List Nat) :
    ∀ st : TState, (∀ y ∈ ys, tmplFilename folder x y z ∈ st.files) →
      tmplInner dl folder z x ys st
        = { st with successful := st.successful + ys.length } := by
  induction ys with
  | nil => intro st h; simp [tmplInner]
  | cons y ys ih =>
    intro st h
    rw [tmplInner]
    have hc : st.files.contains (tmplFilename folder x y z) = true :=
      List.elem_iff.mpr (h y (List.mem_cons_self y ys))
    rw [if_pos hc]
    rw [ih ({ st with successful := st.successful + 1 })
      (fun y2 hy2 => h y2 (List.mem_cons_of_mem y hy2))]
    simp only [List.length_cons]
    congr 1
    omega

/-- Outer template scan over a fully present grid: all tiles skipped,
no requests. -/
theorem tmplOuter_present (dl : Nat → Nat → Bool) (folder : String)
    (z h : Nat) (xs : List Nat) :
    ∀ st : TState,
      (∀ x ∈ xs, ∀ y ∈ List.range h, tmplFilename folder x y z ∈ st.files) →
      tmplOuter dl folder z h xs st
        = { st with successful := st.successful + xs.length * h } := by
  induction xs with
  | nil => intro st hp; simp [tmplOuter]
  | cons x xs ih =>
    intro st hp
    rw [tmplOuter]
    rw [tmplInner_present dl folder z x (List.range h) st
      (fun y hy => hp x (List.mem_cons_self x xs) y hy), List.length_range]
    rw [ih ({ st with successful := st.successful + h })
      (fun x2 hx2 y hy => hp x2 (List.mem_cons_of_mem x hx2) y hy)]
    have hsm : ((x :: xs).length) * h = xs.length * h + h := by
      simp only [List.length_cons]
      ring
    simp only [List.length_range]
    congr 1
    omega

/- ## C2: fetcher idempotence -/

/-- C2: the spec's idempotence property is the clear intent of the
existence-skip in both fetch loops, but the StreetView loop breaks it: the
early-abort check at the end of each column (source line 776) reads
`total_attempted`, which is assigned only after a download attempt; when
every tile of the first column already exists the variable is still
unbound there and the function dies with `UnboundLocalError` instead of
returning `successful == width·height`.  The template loop has no such
check and does satisfy idempotence: with every tile present it issues zero
requests and returns `successful = w·h`. -/
theorem C2_idempotence_bug :
    (∀ dl : Nat → Nat → Nat → Bool, ∀ files : List String,
      ∀ panoid : String, ∀ zoom : Nat,
      (∀ y < 2 ^ zoom, svFilename panoid 0 y zoom ∈ files) →
      attempt_streetview_download_at_zoom dl files panoid zoom
        = .error ()) ∧
    (∀ dl : Nat → Nat → Bool, ∀ files : List String, ∀ folder : String,
      ∀ zoom w h : Nat,
      (∀ x < w, ∀ y < h, tmplFilename folder x y zoom ∈ files) →
      (tmplRun dl files folder zoom w h).requests = 0 ∧
      (tmplRun dl files folder zoom w h).successful = w * h) := by
  constructor
  · intro dl files panoid zoom hy
    unfold attempt_streetview_download_at_zoom
    have hpos : (0 : Nat) < 2 ^ (zoom + 1) :=
      Nat.pos_pow_of_pos (zoom + 1) (by norm_num)
    obtain ⟨m, hm⟩ := Nat.exists_eq_succ_of_ne_zero (Nat.pos_iff_ne_zero.mp hpos)
    rw [hm, List.range_succ_eq_map]
    simp only [svOuter]
    rw [svInner_present dl panoid zoom 0 (List.range (2 ^ zoom))
      ⟨0, 0, 0, none, files⟩
      (fun y hy2 => hy y (List.mem_range.mp hy2))]
  · intro dl files folder zoom w h hp
    unfold tmplRun
    rw [tmplOuter_present dl folder zoom h (List.range w) ⟨0, 0, 0, files⟩
      (fun x hx y hy => hp x (List.mem_range.mp hx) y (List.mem_range.mp hy))]
    rw [List.length_range]
    exact ⟨rfl, by simp⟩

/-- C2 witness: at zoom 0 with the single first-column tile already on
disk the StreetView fetch crashes; a fully present `1×1` template grid is
skipped with zero requests. -/
theorem C2_idempotence_bug_witness :
    (∀ y < 2 ^ 0, svFilename ("p") 0 y 0 ∈ [svFilename ("p") 0 0 0]) ∧
    attempt_streetview_download_at_zoom (fun _ _ _ => false)
        [svFilename ("p") 0 0 0] ("p") 0 = .error () ∧
    (∀ x < 1, ∀ y < 1, tmplFilename ("q") x y 7 ∈ [tmplFilename ("q") 0 0 7]) ∧
    (tmplRun (fun _ _ => false) [tmplFilename ("q") 0 0 7] ("q") 7 1 1).requests
      = 0 ∧
    (tmplRun (fun _ _ => false) [tmplFilename ("q") 0 0 7] ("q") 7 1 1).successful
      = 1 * 1 := by
  have h1 : ∀ y < 2 ^ 0, svFilename ("p") 0 y 0 ∈ [svFilename ("p") 0 0 0] := by
    intro y hy
    have : y = 0 := by simpa using hy
    subst this
    simp
  have h2 : ∀ x < 1, ∀ y < 1,
      tmplFilename ("q") x y 7 ∈ [tmplFilename ("q") 0 0 7] := by
    intro x hx y hy
    have hx0 : x = 0 := by omega
    have hy0 : y = 0 := by omega
    subst hx0
    subst hy0
    simp
  have hres := C2_idempotence_bug.2 (fun _ _ => false)
    [tmplFilename ("q") 0 0 7] ("q") 7 1 1 h2
  exact ⟨h1,
    C2_idempotence_bug.1 (fun _ _ _ => false) [svFilename ("p") 0 0 0] ("p") 0 h1,
    h2, hres.1, hres.2⟩

/- ## C3: early-abort heuristic -/

/-- C3 counterexample: the claim extends the 50-attempt early abort to the
template/parameterized fetcher, but that loop has no abort: at zoom 3 with
every probe and every request failing, the resolved grid is the
theoretical `16×8 = 128 ≥ 50` and the fetcher issues all 128 download
requests instead of stopping at 50. -/
theorem C3_cex :
    (50 : Nat) ≤ 16 * 8 ∧
    gridSearch (fun _ => false) (fun _ => false) 3 = (16, 8) ∧
    (download_template_tiles (fun _ => false) (fun _ => false)
        (fun _ _ => false) [] ("p") 3).requests = 128 := by
  refine ⟨by norm_num, by decide, ?_⟩
  unfold download_template_tiles
  rw [show gridSearch (fun _ => false) (fun _ => false) 3 = (16, 8) from
    by decide]
  rw [tmplRun_allfail ("p") 3 16 8]

/-- C3 (amended): the early-abort heuristic exists only in the StreetView
fetcher: there, with every request failing from an empty directory, the
scan stops after exactly 50 attempted tiles (for grids of ≥ 50 tiles),
the check being evaluated after every downloaded tile in x-major order.
The template/parameterized fetcher has no early abort and always scans
the full grid (`w·h` requests when every request fails). -/
theorem C3_early_abort_amended :
    (∀ panoid : String, ∀ zoom : Nat, 50 ≤ 2 ^ (zoom + 1) * 2 ^ zoom →
      attempt_streetview_download_at_zoom (fun _ _ _ => false) [] panoid zoom
        = .ok ⟨0, 50, 50, some 50, []⟩) ∧
    (∀ folder : String, ∀ zoom w h : Nat,
      tmplRun (fun _ _ => false) [] folder zoom w h
        = ⟨0, w * h, w * h, []⟩) := by
  constructor
  · intro panoid zoom hz
    rw [sv_allfail_run panoid zoom hz]
    rfl
  · intro folder zoom w h
    exact tmplRun_allfail folder zoom w h

/-- C3 witness: the amended theorem at zoom 3 (a `16×8 = 128`-tile grid)
and at a `4×4` template grid. -/
theorem C3_early_abort_amended_witness :
    (50 : Nat) ≤ 2 ^ (3 + 1) * 2 ^ 3 ∧
    attempt_streetview_download_at_zoom (fun _ _ _ => false) [] ("p") 3
      = .ok ⟨0, 50, 50, some 50, []⟩ ∧
    tmplRun (fun _ _ => false) [] ("q") 3 4 4 = ⟨0, 4 * 4, 4 * 4, []⟩ :=
  ⟨by norm_num, C3_early_abort_amended.1 ("p") 3 (by norm_num),
    C3_early_abort_amended.2 ("q") 3 4 4⟩

/- ## C4: zoom fallback -/

/-- C4 counterexample: the claim says a forced zoom never triggers the
zoom-4 fallback, but the source guards the fallback with `zoom == 5`, not
with auto mode: forcing zoom 5 with every request failing still produces
a second full pass at zoom 4 (the pass list is `[5, 4]`). -/
theorem C4_cex :
    download_streetview_tiles (fun _ _ _ => false) [] ("p") (some 5)
      = .ok (0, [5, 4], []) := by
  have h5 := sv_allfail_run ("p") 5 (by norm_num)
  have h4 := sv_allfail_run ("p") 4 (by norm_num)
  simp [download_streetview_tiles, h5, h4, svAllFailState]

/-- C4 (amended): the zoom-4 fallback pass happens exactly once, and
exactly when the first attempted zoom equals 5 (auto mode defaults to 5,
and a forced zoom of 5 also qualifies) and that pass yielded fewer than
10 successes; a forced zoom different from 5 never triggers a fallback. -/
theorem C4_zoom_fallback_amended (dl : Nat → Nat → Nat → Bool)
    (files : List String) (panoid : String) (zoomArg : Option Nat)
    (st : SVState)
    (h : attempt_streetview_download_at_zoom dl files panoid (zoomArg.getD 5)
      = .ok st) :
    download_streetview_tiles dl files panoid zoomArg =
      (if zoomArg.getD 5 = 5 ∧ st.successful < 10 then
        (attempt_streetview_download_at_zoom dl st.files panoid 4).map
          (fun st2 => (st2.successful, [5, 4], st2.files))
      else .ok (st.successful, [zoomArg.getD 5], st.files)) := by
  by_cases hc : zoomArg.getD 5 = 5 ∧ st.successful < 10
  · obtain ⟨hz5, hlt⟩ := hc
    rw [if_pos ⟨hz5, hlt⟩]
    rw [hz5] at h
    cases h4 : attempt_streetview_download_at_zoom dl st.files panoid 4 with
    | error e => simp [download_streetview_tiles, hz5, h, h4, hlt, Except.map]
    | ok st2 => simp [download_streetview_tiles, hz5, h, h4, hlt, Except.map]
  · rw [if_neg hc]
    simp [download_streetview_tiles, h, hc]

/-- C4 witness: forcing zoom 3 with every request failing yields a single
pass `[3]` and no fallback. -/
theorem C4_zoom_fallback_amended_witness :
    attempt_streetview_download_at_zoom (fun _ _ _ => false) [] ("p")
        ((some 3).getD 5) = .ok ⟨0, 50, 50, some 50, []⟩ ∧
    download_streetview_tiles (fun _ _ _ => false) [] ("p") (some 3)
      = .ok (0, [3], []) := by
  have hat : attempt_streetview_download_at_zoom (fun _ _ _ => false) [] ("p")
      ((some 3).getD 5) = .ok ⟨0, 50, 50, some 50, []⟩ := by
    have := sv_allfail_run ("p") 3 (by norm_num)
    simpa [svAllFailState] using this
  refine ⟨hat, ?_⟩
  have h := C4_zoom_fallback_amended (fun _ _ _ => false) [] ("p") (some 3)
    ⟨0, 50, 50, some 50, []⟩ hat
  simpa using h

/- ## C9: tile normalization -/

/-- The area-fold never decreases the accumulator's area. -/
theorem tileArea_foldl_ge_acc (l : List (String × Option (Nat × Nat))) :
    ∀ acc : Nat × Nat,
      acc.1 * acc.2
        ≤ (List.foldl tileAreaStep acc l).1 * (List.foldl tileAreaStep acc l).2 := by
  induction l with
  | nil => intro acc; simp
  | cons e l ih =>
    intro acc
    rw [List.foldl_cons]
    refine le_trans ?_ (ih (tileAreaStep acc e))
    cases he2 : e.2 with
    | none => simp [tileAreaStep, he2]
    | some s =>
      by_cases hlt : s.1 * s.2 > acc.1 * acc.2
      · simp only [tileAreaStep, he2, hlt, if_true]
        omega
      · simp only [tileAreaStep, he2, hlt, if_false]
        exact le_refl _

/-- Every readable size's area is bounded by the fold's result. -/
theorem tileArea_foldl_ge_mem (l : List (String × Option (Nat × Nat))) :
    ∀ acc : Nat × Nat, ∀ e ∈ l, ∀ s : Nat × Nat, e.2 = some s →
      s.1 * s.2
        ≤ (List.foldl tileAreaStep acc l).1 * (List.foldl tileAreaStep acc l).2 := by
  induction l with
  | nil => intro acc e he; exact absurd he (List.not_mem_nil e)
  | cons f l ih =>
    intro acc e he s hs
    rw [List.foldl_cons]
    rcases List.mem_cons.mp he with hef | hel
    · subst hef
      refine le_trans ?_ (tileArea_foldl_ge_acc l (tileAreaStep acc e))
      by_cases hlt : s.1 * s.2 > acc.1 * acc.2
      · simp only [tileAreaStep, hs, hlt, if_true]
        exact le_refl _
      · simp only [tileAreaStep, hs, hlt, if_false]
        omega
    · exact ih (tileAreaStep acc f) e hel s hs

/-- The fold's result is the initial accumulator or a size present in the
list. -/
theorem tileArea_foldl_mem_or (l : List (String × Option (Nat × Nat))) :
    ∀ acc : Nat × Nat,
      List.foldl tileAreaStep acc l = acc ∨
      ∃ e ∈ l, e.2 = some (List.foldl tileAreaStep acc l) := by
  induction l with
  | nil => intro acc; exact Or.inl rfl
  | cons f l ih =>
    intro acc
    rw [List.foldl_cons]
    rcases ih (tileAreaStep acc f) with heq | ⟨e, he, hs⟩
    · rw [heq]
      cases hf : f.2 with
      | none =>
        left
        simp [tileAreaStep, hf]
      | some s =>
        by_cases hlt : s.1 * s.2 > acc.1 * acc.2
        · refine Or.inr ⟨f, List.mem_cons_self f l, ?_⟩
          simp only [tileAreaStep, hf, hlt, if_true]
        · left
          simp [tileAreaStep, hf, hlt]
    · exact Or.inr ⟨e, List.mem_cons_of_mem f he, hs⟩

/-- C9: `normalize_tiles` fails (raises) exactly when no file is readable;
the chosen target dimension has the maximal pixel area among readable
tiles and (when some readable tile has positive area) is itself a present
tile size; and the output keeps every name, maps every readable tile to
the target dimension — marked resized exactly when its size differed —
and leaves unreadable files untouched. -/
theorem C9_normalize (dir : List (String × Option (Nat × Nat))) :
    (normalize_tiles dir = none ↔ ∀ e ∈ dir, e.2 = none) ∧
    (∀ e ∈ dir, ∀ s : Nat × Nat, e.2 = some s →
      s.1 * s.2 ≤ (largestTileSize dir).1 * (largestTileSize dir).2) ∧
    ((∃ e ∈ dir, ∃ s : Nat × Nat, e.2 = some s ∧ 0 < s.1 * s.2) →
      ∃ e ∈ dir, e.2 = some (largestTileSize dir)) ∧
    (∀ out, normalize_tiles dir = some out →
      List.Forall₂ (fun e o =>
        o.1 = e.1 ∧
        (∀ s : Nat × Nat, e.2 = some s →
          o.2.1 = some (largestTileSize dir) ∧
          (o.2.2 = true ↔ s ≠ largestTileSize dir)) ∧
        (e.2 = none → o.2 = (none, false))) dir out) := by
  refine ⟨?_, ?_, ?_, ?_⟩
  · by_cases hall : dir.all (fun e => e.2.isNone)
    · simp only [normalize_tiles, hall, if_true, true_iff]
      intro e he
      have := List.all_eq_true.mp hall e he
      simpa [Option.isNone_iff_eq_none] using this
    · simp only [normalize_tiles, hall, if_false, reduceCtorEq, false_iff]
      intro hcon
      exact hall (List.all_eq_true.mpr (fun e he => by
        simp [Option.isNone_iff_eq_none, hcon e he]))
  · exact fun e he s hs => tileArea_foldl_ge_mem dir (0, 0) e he s hs
  · rintro ⟨e, he, s, hs, hpos⟩
    rcases tileArea_foldl_mem_or dir (0, 0) with heq | hmem
    · have hle := tileArea_foldl_ge_mem dir (0, 0) e he s hs
      rw [heq] at hle
      have h0 : ((0, 0) : Nat × Nat).1 * ((0, 0) : Nat × Nat).2 = 0 := rfl
      rw [h0] at hle
      omega
    · exact hmem
  · intro out hout
    by_cases hall : dir.all (fun e => e.2.isNone)
    · simp [normalize_tiles, hall] at hout
    · simp only [normalize_tiles, hall, Bool.false_eq_true, if_false,
        Option.some.injEq] at hout
      subst hout
      rw [List.forall₂_map_right_iff]
      refine List.forall₂_same.mpr (fun e he => ?_)
      cases he2 : e.2 with
      | none => simp [he2]
      | some s0 =>
        by_cases hls : s0 = largestTileSize dir
        · refine ⟨by simp [he2, hls], ?_, by simp [he2]⟩
          intro s hss
          have hs0 : s = s0 := (Option.some.inj hss).symm
          subst hs0
          subst hls
          constructor
          · simp [he2]
          · simp [he2]
        · refine ⟨by simp [he2, hls], ?_, by simp [he2]⟩
          intro s hss
          have hs0 : s = s0 := (Option.some.inj hss).symm
          subst hs0
          constructor
          · simp [he2, hls]
          · simp [he2, hls]

/-- C9 witness: the claim's concrete directory
`{(512,512)×3, (256,256)×1}`: every tile ends at `(512, 512)` and only the
`(256, 256)` tile is marked resized. -/
theorem C9_normalize_witness :
    normalize_tiles
        [("a", some (512, 512)), ("b", some (512, 512)),
          ("c", some (512, 512)), ("d", some (256, 256))]
      = some [("a", some (512, 512), false), ("b", some (512, 512), false),
          ("c", some (512, 512), false), ("d", some (512, 512), true)] ∧
    List.Forall₂ (fun e o =>
        o.1 = e.1 ∧
        (∀ s : Nat × Nat, e.2 = some s →
          o.2.1 = some (largestTileSize
            [("a", some (512, 512)), ("b", some (512, 512)),
              ("c", some (512, 512)), ("d", some (256, 256))]) ∧
          (o.2.2 = true ↔ s ≠ largestTileSize
            [("a", some (512, 512)), ("b", some (512, 512)),
              ("c", some (512, 512)), ("d", some (256, 256))])) ∧
        (e.2 = none → o.2 = (none, false)))
      [("a", some (512, 512)), ("b", some (512, 512)),
        ("c", some (512, 512)), ("d", some (256, 256))]
      [("a", some (512, 512), false), ("b", some (512, 512), false),
        ("c", some (512, 512), false), ("d", some (512, 512), true)] :=
  ⟨by decide,
    (C9_normalize
      [("a", some (512, 512)), ("b", some (512, 512)),
        ("c", some (512, 512)), ("d", some (256, 256))]).2.2.2
      [("a", some (512, 512), false), ("b", some (512, 512), false),
        ("c", some (512, 512), false), ("d", some (512, 512), true)]
      (by decide)⟩

/- ## C7: stitcher canvas construction -/

theorem placeTiles_nil (tw th cw ch : Nat) (c : Canvas) :
    placeTiles tw th cw ch [] c = c := rfl

theorem placeTiles_cons (tw th cw ch : Nat) (u : Nat × Nat × TileImg)
    (us : List (Nat × Nat × TileImg)) (c : Canvas) :
    placeTiles tw th cw ch (u :: us) c
      = placeTiles tw th cw ch us
          (if u.1 * tw + tw ≤ cw ∧ u.2.1 * th + th ≤ ch then
            pasteTile c u.2.2 (u.1 * tw) (u.2.1 * th)
          else c) := rfl

/-- Placing tiles never changes the canvas dimensions. -/
theorem placeTiles_dims (tw th cw ch : Nat)
    (tiles : List (Nat × Nat × TileImg)) :
    ∀ c : Canvas, (placeTiles tw th cw ch tiles c).width = c.width ∧
      (placeTiles tw th cw ch tiles c).height = c.height := by
  induction tiles with
  | nil => intro c; exact ⟨rfl, rfl⟩
  | cons u us ih =>
    intro c
    rw [placeTiles_cons]
    by_cases hf : u.1 * tw + tw ≤ cw ∧ u.2.1 * th + th ≤ ch
    · rw [if_pos hf]
      exact ih (pasteTile c u.2.2 (u.1 * tw) (u.2.1 * th))
    · rw [if_neg hf]
      exact ih c

/-- A pixel covered by no fitting tile keeps its base-canvas value. -/
theorem placeTiles_untouched (tw th cw ch : Nat)
    (tiles : List (Nat × Nat × TileImg)) :
    ∀ c : Canvas, ∀ a b : Nat,
      (∀ t ∈ tiles, tileFits tw th cw ch t → ¬tileCovers tw th t a b) →
      (placeTiles tw th cw ch tiles c).px a b = c.px a b := by
  induction tiles with
  | nil => intro c a b h; rfl
  | cons u us ih =>
    intro c a b h
    rw [placeTiles_cons]
    by_cases hf : u.1 * tw + tw ≤ cw ∧ u.2.1 * th + th ≤ ch
    · rw [if_pos hf]
      rw [ih (pasteTile c u.2.2 (u.1 * tw) (u.2.1 * th)) a b
        (fun t ht hft => h t (List.mem_cons_of_mem u ht) hft)]
      unfold pasteTile
      exact if_neg (h u (List.mem_cons_self u us) hf)
    · rw [if_neg hf]
      exact ih c a b (fun t ht hft => h t (List.mem_cons_of_mem u ht) hft)

/-- Interval disjointness for distinct grid rows/columns: with positive
cell size `w`, a cell-`v` interval containing `u·w + d` (`d < w`) forces
`v = u`. -/
theorem grid_cell_eq (w u v d : Nat) (hw : 0 < w) (hd : d < w)
    (h1 : v * w ≤ u * w + d) (h2 : u * w + d < v * w + w) : v = u := by
  have hvu : v < u + 1 := by
    have : v * w < (u + 1) * w := by
      have : v * w < u * w + w := by omega
      calc v * w < u * w + w := this
        _ = (u + 1) * w := by ring
    exact lt_of_mul_lt_mul_right this (le_of_lt hw)
  have huv : u < v + 1 := by
    have : u * w < (v + 1) * w := by
      have : u * w < v * w + w := by omega
      calc u * w < v * w + w := this
        _ = (v + 1) * w := by ring
    exact lt_of_mul_lt_mul_right this (le_of_lt hw)
  omega

/-- With uniform tile dimensions and pairwise distinct coordinates, every
fitting tile's rectangle shows exactly that tile's pixels in the final
canvas. -/
theorem placeTiles_placed (tw th cw ch : Nat) (htw : 0 < tw) (hth : 0 < th)
    (tiles : List (Nat × Nat × TileImg)) :
    ∀ c : Canvas, ∀ t ∈ tiles,
      (∀ u ∈ tiles, u.2.2.width = tw ∧ u.2.2.height = th) →
      tiles.Pairwise (fun u v => (u.1, u.2.1) ≠ (v.1, v.2.1)) →
      tileFits tw th cw ch t →
      ∀ dx, dx < tw → ∀ dy, dy < th →
        (placeTiles tw th cw ch tiles c).px (t.1 * tw + dx) (t.2.1 * th + dy)
          = t.2.2.px dx dy := by
  induction tiles with
  | nil => intro c t ht; exact absurd ht (List.not_mem_nil t)
  | cons u us ih =>
    intro c t ht huni hpw hfit dx hdx dy hdy
    rw [placeTiles_cons]
    rcases List.mem_cons.mp ht with rfl | hmem
    · have hfit2 : t.1 * tw + tw ≤ cw ∧ t.2.1 * th + th ≤ ch := hfit
      rw [if_pos hfit2]
      rw [placeTiles_untouched tw th cw ch us
        (pasteTile c t.2.2 (t.1 * tw) (t.2.1 * th))
        (t.1 * tw + dx) (t.2.1 * th + dy) ?hnc]
      · have hw := (huni t (List.mem_cons_self t us)).1
        have hh := (huni t (List.mem_cons_self t us)).2
        have hcond : t.1 * tw ≤ t.1 * tw + dx ∧
            t.1 * tw + dx < t.1 * tw + t.2.2.width ∧
            t.2.1 * th ≤ t.2.1 * th + dy ∧
            t.2.1 * th + dy < t.2.1 * th + t.2.2.height :=
          ⟨by omega, by rw [hw]; omega, by omega, by rw [hh]; omega⟩
        simp only [pasteTile]
        rw [if_pos hcond]
        congr 1 <;> omega
      · intro v hv hfv hcov
        have hvw := (huni v (List.mem_cons_of_mem t hv)).1
        have hvh := (huni v (List.mem_cons_of_mem t hv)).2
        obtain ⟨h1, h2, h3, h4⟩ := hcov
        rw [hvw] at h2
        rw [hvh] at h4
        have hx : v.1 = t.1 := grid_cell_eq tw t.1 v.1 dx htw hdx h1 h2
        have hy : v.2.1 = t.2.1 := grid_cell_eq th t.2.1 v.2.1 dy hth hdy h3 h4
        exact ((List.pairwise_cons.mp hpw).1 v hv) (by rw [hx, hy])
    · exact ih
        (if u.1 * tw + tw ≤ cw ∧ u.2.1 * th + th ≤ ch then
          pasteTile c u.2.2 (u.1 * tw) (u.2.1 * th)
        else c)
        t hmem (fun v hv => huni v (List.mem_cons_of_mem u hv))
        (List.pairwise_cons.mp hpw).2 hfit dx hdx dy hdy

/-- C7: `stitchCanvas` fails exactly when no directory entry both matches
the `x<digits>-y<digits>-zoom<digits>` filename pattern and loads; when
tiles load, the canvas is `((maxX+1)·tileWidth) × ((maxY+1)·tileHeight)`
with dimensions from the first loaded tile; pixels covered by no fitting
tile stay black (out-of-bounds placements are skipped, not errors), and —
for uniform tile sizes and distinct coordinates — every fitting tile
appears at `(x·tileWidth, y·tileHeight)` with its own pixels. -/
theorem C7_stitch_construction (dir : List (String × Option TileImg)) :
    (stitchCanvas dir = none ↔ loadTiles dir = []) ∧
    (∀ t0 : Nat × Nat × TileImg, ∀ ts : List (Nat × Nat × TileImg),
      loadTiles dir = t0 :: ts →
      ∃ c : Canvas, stitchCanvas dir = some c ∧
        c.width = (tilesMaxX (t0 :: ts) + 1) * t0.2.2.width ∧
        c.height = (tilesMaxY (t0 :: ts) + 1) * t0.2.2.height ∧
        (∀ a b : Nat,
          (∀ t ∈ t0 :: ts,
            tileFits t0.2.2.width t0.2.2.height
              ((tilesMaxX (t0 :: ts) + 1) * t0.2.2.width)
              ((tilesMaxY (t0 :: ts) + 1) * t0.2.2.height) t →
            ¬tileCovers t0.2.2.width t0.2.2.height t a b) →
          c.px a b = blackPx) ∧
        (0 < t0.2.2.width → 0 < t0.2.2.height →
          (∀ u ∈ t0 :: ts, u.2.2.width = t0.2.2.width ∧
            u.2.2.height = t0.2.2.height) →
          (t0 :: ts).Pairwise (fun u v => (u.1, u.2.1) ≠ (v.1, v.2.1)) →
          ∀ t ∈ t0 :: ts,
            tileFits t0.2.2.width t0.2.2.height
              ((tilesMaxX (t0 :: ts) + 1) * t0.2.2.width)
              ((tilesMaxY (t0 :: ts) + 1) * t0.2.2.height) t →
            ∀ dx, dx < t0.2.2.width → ∀ dy, dy < t0.2.2.height →
              c.px (t.1 * t0.2.2.width + dx) (t.2.1 * t0.2.2.height + dy)
                = t.2.2.px dx dy)) := by
  constructor
  · cases hl : loadTiles dir with
    | nil => simp [stitchCanvas, hl]
    | cons a l => simp [stitchCanvas, hl]
  · intro t0 ts hl
    refine ⟨placeTiles t0.2.2.width t0.2.2.height
        ((tilesMaxX (t0 :: ts) + 1) * t0.2.2.width)
        ((tilesMaxY (t0 :: ts) + 1) * t0.2.2.height) (t0 :: ts)
        ⟨(tilesMaxX (t0 :: ts) + 1) * t0.2.2.width,
          (tilesMaxY (t0 :: ts) + 1) * t0.2.2.height,
          fun _ _ => blackPx⟩, ?_, ?_, ?_, ?_, ?_⟩
    · simp [stitchCanvas, hl]
    · exact (placeTiles_dims _ _ _ _ _ _).1
    · exact (placeTiles_dims _ _ _ _ _ _).2
    · intro a b hnc
      rw [placeTiles_untouched _ _ _ _ _ _ a b hnc]
    · intro htw hth huni hpw t ht hfit dx hdx dy hdy
      exact placeTiles_placed _ _ _ _ htw hth (t0 :: ts) _ t ht huni hpw
        hfit dx hdx dy hdy

/-- C7 witness: a directory with one matching 2×2 tile at `(0,0)`, one
non-matching filename, one matching tile at `(2,0)` and one unreadable
file stitches to a `6×2` canvas showing the `(2,0)` tile's pixel at
`(5, 1)`. -/
theorem C7_stitch_construction_witness :
    loadTiles
        [("a_x0-y0-zoom2.jpg", some ⟨2, 2, fun a b => (a, b, 5)⟩),
          ("noise.txt", some ⟨2, 2, fun a b => (a, b, 6)⟩),
          ("a_x2-y0-zoom2.jpg", some ⟨2, 2, fun a b => (a, b, 7)⟩),
          ("a_x9-y9-zoom2.jpg", none)]
      = [(0, 0, ⟨2, 2, fun a b => (a, b, 5)⟩),
          (2, 0, ⟨2, 2, fun a b => (a, b, 7)⟩)] ∧
    (∃ c : Canvas,
      stitchCanvas
          [("a_x0-y0-zoom2.jpg", some ⟨2, 2, fun a b => (a, b, 5)⟩),
            ("noise.txt", some ⟨2, 2, fun a b => (a, b, 6)⟩),
            ("a_x2-y0-zoom2.jpg", some ⟨2, 2, fun a b => (a, b, 7)⟩),
            ("a_x9-y9-zoom2.jpg", none)]
        = some c ∧
      c.width = 6 ∧ c.height = 2 ∧
      c.px (2 * 2 + 1) (0 * 2 + 1) = (1, 1, 7)) := by
  have hload : loadTiles
      [("a_x0-y0-zoom2.jpg", some ⟨2, 2, fun a b => (a, b, 5)⟩),
        ("noise.txt", some ⟨2, 2, fun a b => (a, b, 6)⟩),
        ("a_x2-y0-zoom2.jpg", some ⟨2, 2, fun a b => (a, b, 7)⟩),
        ("a_x9-y9-zoom2.jpg", none)]
      = [(0, 0, ⟨2, 2, fun a b => (a, b, 5)⟩),
          (2, 0, ⟨2, 2, fun a b => (a, b, 7)⟩)] := by rfl
  refine ⟨hload, ?_⟩
  obtain ⟨c, hc, hw, hh, hbg, hpl⟩ :=
    (C7_stitch_construction
      [("a_x0-y0-zoom2.jpg", some ⟨2, 2, fun a b => (a, b, 5)⟩),
        ("noise.txt", some ⟨2, 2, fun a b => (a, b, 6)⟩),
        ("a_x2-y0-zoom2.jpg", some ⟨2, 2, fun a b => (a, b, 7)⟩),
        ("a_x9-y9-zoom2.jpg", none)]).2
      (0, 0, ⟨2, 2, fun a b => (a, b, 5)⟩)
      [(2, 0, ⟨2, 2, fun a b => (a, b, 7)⟩)] hload
  have hmaxx : tilesMaxX
      [(0, 0, ⟨2, 2, fun a b => (a, b, 5)⟩),
        (2, 0, ⟨2, 2, fun a b => (a, b, 7)⟩)] = 2 := rfl
  have hmaxy : tilesMaxY
      [(0, 0, ⟨2, 2, fun a b => (a, b, 5)⟩),
        (2, 0, ⟨2, 2, fun a b => (a, b, 7)⟩)] = 0 := rfl
  refine ⟨c, hc, by simpa [hmaxx] using hw, by simpa [hmaxy] using hh, ?_⟩
  have hres := hpl (by norm_num) (by norm_num)
    (by
      intro u hu
      rcases List.mem_cons.mp hu with rfl | hu2
      · exact ⟨rfl, rfl⟩
      · rcases List.mem_cons.mp hu2 with rfl | hu3
        · exact ⟨rfl, rfl⟩
        · exact absurd hu3 (List.not_mem_nil u))
    (by
      refine List.pairwise_cons.mpr ⟨?_, List.pairwise_singleton _ _⟩
      intro v hv
      rcases List.mem_cons.mp hv with rfl | hv2
      · decide
      · exact absurd hv2 (List.not_mem_nil v))
    (2, 0, ⟨2, 2, fun a b => (a, b, 7)⟩)
    (by simp)
    (by refine ⟨?_, ?_⟩ <;> simp [tilesMaxX, tilesMaxY])
    1 (by norm_num) 1 (by norm_num)
  simpa using hres

/-- C10 witness: the general `panoid=` conjunct applied at the concrete
token `TOK123`. -/
theorem C10_extract_ungated_witness :
    ("TOK123" : String).data ≠ [] ∧
    (∀ c ∈ ("TOK123" : String).data, isTokenChar c = true) ∧
    extract_id_from_url ("https://a.com/?panoid=" ++ "TOK123")
      = some ("TOK123") :=
  ⟨by decide, by decide,
    C10_extract_ungated.1 ("TOK123") (by decide) (by decide)⟩
